import Mathlib

/-!
Verification development for the PredFi realtime quoting / arbitrage engine.

JavaScript numbers are modelled as exact rationals (`ℚ`); `Math.floor` /
`Math.ceil` / `Number.toFixed` become exact floor / ceiling / rounding on
scaled rationals; timestamps (ms) are modelled as integers.  Fallible
external calls (order placement, position queries, order cancellation)
are passed in as explicit oracle values, and the side effects a cycle
performs are collected as explicit action lists.
-/

namespace PredFi

/-- One resting level of the order book: `[price, quantity]`. -/
abbrev OrderbookItem := ℚ × ℚ

/-- `OrderbookData` from `services/ws.ts` (the fields the engine reads):
bids sorted descending, asks sorted ascending. -/
structure OrderbookData where
  bids : List OrderbookItem
  asks : List OrderbookItem
  deriving Repr, DecidableEq

/-- The tick size `1 / Math.pow(10, precision)` from `onOrderbookUpdate`. -/
def tickOf (precision : ℕ) : ℚ := 1 / 10 ^ precision

/-- `Math.floor(x * 10^p) / 10^p` — the bid snap of `onOrderbookUpdate`. -/
def snapFloor (p : ℕ) (x : ℚ) : ℚ := (⌊x * 10 ^ p⌋ : ℚ) / 10 ^ p

/-- `Math.ceil(x * 10^p) / 10^p` — the ask snap of `onOrderbookUpdate`. -/
def snapCeil (p : ℕ) (x : ℚ) : ℚ := (⌈x * 10 ^ p⌉ : ℚ) / 10 ^ p

/-- `Number(x.toFixed(p))`: round to `p` decimal places. -/
def jsToFixed (p : ℕ) (x : ℚ) : ℚ := (round (x * 10 ^ p) : ℚ) / 10 ^ p

/-- The bid-side wall scan of `onOrderbookUpdate`: first resting bid level
whose price is `<= maxSafeBid`. -/
def firstBidLE : List OrderbookItem → ℚ → Option ℚ
  | [], _ => none
  | (price, _) :: rest, bound =>
    if price ≤ bound then some price else firstBidLE rest bound

/-- The ask-side wall scan of `onOrderbookUpdate`: first resting ask level
whose price is `>= minSafeAsk`. -/
def firstAskGE : List OrderbookItem → ℚ → Option ℚ
  | [], _ => none
  | (price, _) :: rest, bound =>
    if bound ≤ price then some price else firstAskGE rest bound

/-- Best bid of a snapshot (`ob.bids[0][0]`, `0` for an empty side —
the engine never reads it on an empty side). -/
def bestBidOf (ob : OrderbookData) : ℚ := (ob.bids.headD (0, 0)).1

/-- Best ask of a snapshot (`ob.asks[0][0]`). -/
def bestAskOf (ob : OrderbookData) : ℚ := (ob.asks.headD (0, 0)).1

/-- The target-selection stage of `MarketMaker.onOrderbookUpdate`
(src/bot.ts lines 283–342): liquidity-wall scan, floor/ceil snap,
mid-separation clamp, `toFixed` re-snap, tick bounds, and the final
anti-cross clamps, in exactly the source order.  Returns
`(targetBid, targetAsk)`. -/
def computeTargets (minDist : ℚ) (precision : ℕ) (ob : OrderbookData) : ℚ × ℚ :=
  let bestBid := bestBidOf ob
  let bestAsk := bestAskOf ob
  let mid := (bestBid + bestAsk) / 2
  let tickSize := tickOf precision
  let maxSafeBid := mid - minDist
  let minSafeAsk := mid + minDist
  let targetBid0 := (firstBidLE ob.bids maxSafeBid).getD maxSafeBid
  let targetAsk0 := (firstAskGE ob.asks minSafeAsk).getD minSafeAsk
  let tb1 := snapFloor precision targetBid0
  let ta1 := snapCeil precision targetAsk0
  let tb2 := if mid ≤ tb1 then mid - tickSize else tb1
  let ta2 := if ta1 ≤ mid then mid + tickSize else ta1
  let tb3 := jsToFixed precision tb2
  let ta3 := jsToFixed precision ta2
  let tb4 := if tb3 ≤ tickSize then tickSize else tb3
  let ta4 := if 1 - tickSize ≤ ta3 then 1 - tickSize else ta3
  let tb5 := if bestAsk ≤ tb4 then bestAsk - tickSize else tb4
  let ta5 := if ta4 ≤ bestBid then bestBid + tickSize else ta4
  (tb5, ta5)

/-! ## QuoteController (`MarketMaker` in src/bot.ts) -/

/-- The configuration values of `CONFIG` (src/config.ts) read by the
quoting cycle.  Defaults: `SIZE = 50`, `PRICE_ADJUST_INTERVAL = 1000`,
`REQUOTE_THRESHOLD = 0.005`, `MIN_DIST_FROM_MID = 0.03`,
`SAFETY_DELAY_AFTER_CANCEL = 2000`. -/
structure BotConfig where
  SIZE : ℚ
  PRICE_ADJUST_INTERVAL : ℤ
  REQUOTE_THRESHOLD : ℚ
  MIN_DIST_FROM_MID : ℚ
  deriving Repr, DecidableEq

def defaultConfig : BotConfig :=
  { SIZE := 50
    PRICE_ADJUST_INTERVAL := 1000
    REQUOTE_THRESHOLD := 5 / 1000
    MIN_DIST_FROM_MID := 3 / 100 }

/-- The mutable per-market state of `MarketMaker`. -/
structure QuoteState where
  isRunning : Bool
  isExiting : Bool
  isTradingHalted : Bool
  isDumping : Bool
  isUpdating : Bool
  requoteCount : ℕ
  lastRequoteReset : ℤ
  lastOrderTime : ℤ
  needsRequote : Bool
  currentBid : ℚ
  currentAsk : ℚ
  lastQuotedBid : Option ℚ
  lastQuotedAsk : Option ℚ
  deriving Repr, DecidableEq

/-- Externally visible side effects of a quoting cycle.
`cancelAllResting` is one invocation of `cancelAllOrders` (fetch this
market's open orders and cancel whatever is found);
`placeLimit true p s` is a BUY limit on the YES token,
`placeLimit false p s` a BUY limit on the NO token. -/
inductive QuoteAction where
  | cancelAllResting
  | placeLimit (isYes : Bool) (price : ℚ) (size : ℚ)
  deriving Repr, DecidableEq

/-- External responses consumed by one quoting cycle:
`posQuery` is the `getPositions` result projected onto this market
(`none` models the call throwing, in which case the source leaves both
per-outcome positions at `0`); `cancelResponses` feeds the
cancel-confirm loop, one Bool per `cancelAllOrders` call
(`true` = orders were found dirty, `false` = clean). -/
structure QuoteEnv where
  posQuery : Option (ℚ × ℚ)
  cancelResponses : List Bool
  deriving Repr, DecidableEq

/-- The `while (true)` cancel-confirm loop of `updateOrders`
(src/bot.ts lines 393–402): call `cancelAllOrders` until it reports
clean.  Returns `(wasDirty, actions)`; `none` when the supplied
response list runs out before a clean pass (the source loop would still
be blocking). -/
def cancelLoop : List Bool → Option (Bool × List QuoteAction)
  | [] => none
  | dirty :: rest =>
    if dirty then
      (cancelLoop rest).map (fun r => (true, QuoteAction.cancelAllResting :: r.2))
    else
      some (false, [QuoteAction.cancelAllResting])

/-- `MarketMaker.updateOrders` (src/bot.ts lines 388–476): guard, strict
cancel-before-replace, exposure-cap check (positions default to `0` when
the query fails), and the two independent BUY placements
(YES at `bidPrice`, NO at `1 - askPrice`), each floored to whole shares.
Returns the list of performed actions, `none` when the cancel loop never
confirms a clean book. -/
def updateOrders (cfg : BotConfig) (precision : ℕ) (bidPrice askPrice : ℚ)
    (halted exiting : Bool) (env : QuoteEnv) : Option (List QuoteAction) :=
  if halted || exiting then some []
  else
    match cancelLoop env.cancelResponses with
    | none => none
    | some (_wasDirty, cancelActs) =>
      let pos := env.posQuery.getD (0, 0)
      let currentPosYes := pos.1
      let currentPosNo := pos.2
      let allowedYes := max 0 (cfg.SIZE - currentPosYes)
      let allowedNo := max 0 (cfg.SIZE - currentPosNo)
      if allowedYes ≤ 1 ∧ allowedNo ≤ 1 then some cancelActs
      else
        let priceYes := jsToFixed precision bidPrice
        let priceNo := jsToFixed precision (1 - askPrice)
        let sizeYes := min cfg.SIZE allowedYes
        let sizeNo := min cfg.SIZE allowedNo
        if sizeYes < 1 ∧ sizeNo < 1 then some cancelActs
        else
          some (cancelActs
            ++ (if 1 ≤ sizeYes then [QuoteAction.placeLimit true priceYes ((⌊sizeYes⌋ : ℤ) : ℚ)] else [])
            ++ (if 1 ≤ sizeNo then [QuoteAction.placeLimit false priceNo ((⌊sizeNo⌋ : ℤ) : ℚ)] else []))

/-- `MarketMaker.onOrderbookUpdate` (src/bot.ts lines 251–384) as one
state transition: guards, rolling kill-switch window reset, kill-switch
trip, rate limit, target selection, requote decision, and the
`updateOrders` call followed by the state persist.  `now` is
`Date.now()`.  Returns the new state and the performed actions
(`none` when the inner cancel loop blocks forever). -/
def onOrderbookUpdate (cfg : BotConfig) (precision : ℕ) (now : ℤ)
    (st : QuoteState) (ob : OrderbookData) (env : QuoteEnv) :
    Option (QuoteState × List QuoteAction) :=
  if !st.isRunning || st.isExiting || st.isTradingHalted || st.isDumping then some (st, [])
  else if st.isUpdating then some (st, [])
  else
    -- Volatility kill-switch reset window (10s)
    let count0 := if 10000 < now - st.lastRequoteReset then 0 else st.requoteCount
    let reset0 := if 10000 < now - st.lastRequoteReset then now else st.lastRequoteReset
    let st0 := { st with requoteCount := count0, lastRequoteReset := reset0 }
    if 5 < count0 then
      some ({ st0 with isTradingHalted := true }, [QuoteAction.cancelAllResting])
    else if !st.needsRequote && decide (now - st.lastOrderTime < cfg.PRICE_ADJUST_INTERVAL) then
      some (st0, [])
    else if ob.bids.isEmpty || ob.asks.isEmpty then some (st0, [])
    else
      let targets := computeTargets cfg.MIN_DIST_FROM_MID precision ob
      let targetBid := targets.1
      let targetAsk := targets.2
      let bidDiff := |targetBid - st.currentBid|
      let askDiff := |targetAsk - st.currentAsk|
      if !st.needsRequote && !(cfg.REQUOTE_THRESHOLD < bidDiff ∨ cfg.REQUOTE_THRESHOLD < askDiff : Bool) then
        some (st0, [])
      else
        let count1 := if st.needsRequote then count0 else count0 + 1
        match updateOrders cfg precision targetBid targetAsk
            st0.isTradingHalted st0.isExiting env with
        | none => none
        | some acts =>
          some ({ st0 with
                    requoteCount := count1
                    currentBid := targetBid
                    currentAsk := targetAsk
                    lastQuotedBid := some targetBid
                    lastQuotedAsk := some targetAsk
                    lastOrderTime := now
                    needsRequote := false }, acts)

/-- The kill-switch cooldown callback (src/bot.ts lines 270–274),
scheduled 10s after a trip: un-halt and reset the requote counter. -/
def killSwitchResume (st : QuoteState) : QuoteState :=
  { st with isTradingHalted := false, requoteCount := 0 }

/-! ## Wallet-fill handling and the inventory-dump loop (src/bot.ts) -/

/-- `MarketMaker.onWalletEvent` (src/bot.ts lines 478–498): on an
`orderTransactionSuccess` push set `isExiting` and `isTradingHalted`
immediately; the returned Bool says whether `dumpInventory` is triggered
(it is skipped when a dump is already running). -/
def onWalletEvent (st : QuoteState) (eventType : String) : QuoteState × Bool :=
  if eventType = "orderTransactionSuccess" then
    ({ st with isExiting := true, isTradingHalted := true }, !st.isDumping)
  else (st, false)

/-- The dust threshold of `dumpInventory`: `parseUnits("0.1", 18)`,
i.e. 0.1 shares. -/
def dustThreshold : ℚ := 1 / 10

/-- Side effects of the dump loop: one `cancelAllOrders` invocation, or
one market SELL (`true` = YES outcome) for a position above dust. -/
inductive DumpAction where
  | cancelAllResting
  | marketSell (isYes : Bool) (qty : ℚ)
  deriving Repr, DecidableEq

/-- One `getPositions` response inside the dump loop: `none` models the
call throwing (the source waits 1s and retries), `some ps` the list of
`(isYes, balance-in-shares)` positions of this market. -/
abbrev DumpResponse := Option (List (Bool × ℚ))

/-- The `while (true)` body of `MarketMaker.dumpInventory`
(src/bot.ts lines 507–559): cancel everything first, fetch positions
(retrying on error), sum the balances above the dust threshold, break
when that sum is zero, otherwise market-sell every above-dust position
and loop.  Consumes one response per iteration; `none` when the
response list runs out before the break condition is met. -/
def dumpLoop : List DumpResponse → Option (List DumpAction)
  | [] => none
  | resp :: rest =>
    match resp with
    | none => (dumpLoop rest).map (fun t => DumpAction.cancelAllResting :: t)
    | some positions =>
      let dirty := positions.filter (fun p => dustThreshold < p.2)
      let totalShares := (dirty.map (fun p => p.2)).sum
      if totalShares = 0 then some [DumpAction.cancelAllResting]
      else
        (dumpLoop rest).map (fun t =>
          DumpAction.cancelAllResting
            :: (dirty.map (fun p => DumpAction.marketSell p.1 p.2)) ++ t)

/-- The fixed cooldown (ms) scheduled after the dump loop finishes. -/
def dumpCooldownMs : ℤ := 5000

/-- The resume callback scheduled `dumpCooldownMs` after the dump loop
finishes (src/bot.ts lines 565–570): clear exiting and halted and reset
the requote counter. -/
def resumeAfterDump (st : QuoteState) : QuoteState :=
  { st with isExiting := false, isTradingHalted := false, requoteCount := 0 }

/-! ## EventStreamClient (`RealtimeClient` in src/services/ws.ts) -/

/-- The subscription registry of `RealtimeClient`: topic name to the
non-empty list of callback identities, plus the reconnect counter. -/
structure WsClientState where
  connectionAttempts : ℕ
  subscriptions : List (String × List ℕ)
  deriving Repr, DecidableEq

/-- Every registered callback, in registry order — the source's
`Array.from(this.subscriptions.values()).flat()`. -/
def allCallbacks (st : WsClientState) : List ℕ :=
  (st.subscriptions.map (fun s => s.2)).flatten

/-- Observable effects of one `reconnect()` invocation: either a retry
scheduled after `delayMs`, or a terminal `ws_disconnected` error
delivered to one callback. -/
inductive WsEffect where
  | retryAfter (delayMs : ℕ)
  | deliverDisconnectError (callback : ℕ)
  deriving Repr, DecidableEq

/-- `RealtimeClient.reconnect` (src/services/ws.ts lines 45–64), invoked
from `onClose` on every non-clean close.  `attempt` reads the counter
and post-increments it; if `attempt < maxConnAttempts` a new socket is
created after `min(2^attempt * 1000, maxRetryInterval)` ms, otherwise
every registered callback is handed the terminal disconnect error and
no retry happens. -/
def reconnectStep (maxConnAttempts maxRetryInterval : ℕ) (st : WsClientState) :
    WsClientState × List WsEffect :=
  let attempt := st.connectionAttempts
  let st' := { st with connectionAttempts := attempt + 1 }
  if attempt < maxConnAttempts then
    (st', [WsEffect.retryAfter (min (2 ^ attempt * 1000) maxRetryInterval)])
  else
    (st', (allCallbacks st).map WsEffect.deliverDisconnectError)

/-- `k` consecutive non-clean closes (no intervening successful open,
which would reset the counter): each one invokes `reconnect` once. -/
def runCloses (maxConnAttempts maxRetryInterval : ℕ) :
    ℕ → WsClientState → WsClientState × List WsEffect
  | 0, st => (st, [])
  | k + 1, st =>
    let r1 := reconnectStep maxConnAttempts maxRetryInterval st
    let r2 := runCloses maxConnAttempts maxRetryInterval k r1.1
    (r2.1, r1.2 ++ r2.2)

/-! ## DipArbController (`DipArbBot` in src/strategies/dip-arb-bot.ts) -/

/-- One sample of a price-history buffer: `(timestamp, price)`. -/
abbrev PricePoint := ℤ × ℚ

/-- The dip-strategy configuration of `DipArbBot.config`:
`sumTarget` is hardcoded `0.85`, `shares` defaults to 50,
`maxVelocity` is hardcoded `-0.12`, `slidingWindowMs` defaults 3000,
`leg2Timeout` is 60000. -/
structure DipConfig where
  sumTarget : ℚ
  shares : ℚ
  maxVelocity : ℚ
  slidingWindowMs : ℤ
  leg2Timeout : ℤ
  deriving Repr, DecidableEq

def defaultDipConfig : DipConfig :=
  { sumTarget := 85 / 100
    shares := 50
    maxVelocity := -12 / 100
    slidingWindowMs := 3000
    leg2Timeout := 60000 }

inductive Phase where
  | MONITORING
  | LEG1_FILLED
  | COMPLETE
  deriving Repr, DecidableEq

/-- The mutable state of `DipArbBot` (token ids are tracked as sides:
`some true` = YES leg held, `some false` = NO leg held). -/
structure DipState where
  phase : Phase
  yesHistory : List PricePoint
  noHistory : List PricePoint
  leg1FillPrice : ℚ
  leg1Side : Option Bool
  leg1Time : ℤ
  walletBalanceUSDT : ℚ
  deriving Repr, DecidableEq

/-- Order placements of the dip bot: leg 1 is the dip BUY, leg 2 the
hedge BUY on the opposite side (`true` = YES token). -/
inductive DipAction where
  | placeLeg1 (isYes : Bool) (price : ℚ) (shares : ℚ)
  | placeLeg2 (isYes : Bool) (price : ℚ) (shares : ℚ)
  deriving Repr, DecidableEq

/-- `DipArbBot.updateHistory`: append the sample, then shift old points
while the front is outside the sliding window. -/
def pruneHistory (windowMs now : ℤ) : List PricePoint → List PricePoint
  | [] => []
  | p :: rest =>
    if windowMs < now - p.1 then pruneHistory windowMs now rest else p :: rest

def updateHistory (windowMs : ℤ) (history : List PricePoint) (price : ℚ) (now : ℤ) :
    List PricePoint :=
  pruneHistory windowMs now (history ++ [(now, price)])

/-- `DipArbBot.calculateVelocity`: relative change between the newest
sample and the one 5 samples back; `0` when fewer than 6 samples or the
old price is `0`. -/
def calculateVelocity (history : List PricePoint) : ℚ :=
  if history.length < 6 then 0
  else
    let n := history.length - 1
    let current := (history.getD n (0, 0)).2
    let old := (history.getD (n - 5) (0, 0)).2
    if old = 0 then 0 else (current - old) / old

/-- `DipArbBot.checkOrderbookDepth`: total resting quantity at levels
priced at or below `priceCap`. -/
def checkOrderbookDepth (levels : List OrderbookItem) (priceCap : ℚ) : ℚ :=
  ((levels.filter (fun l => l.1 ≤ priceCap)).map (fun l => l.2)).sum

/-- `DipArbBot.trySoftHedgeLadder` (src/strategies/dip-arb-bot.ts lines
475–490): fixed descending candidate list, first rung whose price keeps
`leg1FillPrice + p <= sumTarget`, `null` otherwise. -/
def ladders : List ℚ := [85 / 100, 80 / 100, 75 / 100, 70 / 100]

def trySoftHedgeLadder (cfg : DipConfig) (leg1FillPrice : ℚ) : Option ℚ :=
  ladders.find? (fun p => leg1FillPrice + p ≤ cfg.sumTarget)

/-- `DipArbBot.executeLeg1` (lines 339–401), non-dry-run path, with the
placement outcome supplied as `orderSuccess`: size to
`min(shares, floor(1% of wallet / price))`, skip below one share,
optimistically lock the phase and revert to MONITORING on failure. -/
def executeLeg1 (cfg : DipConfig) (st : DipState) (price : ℚ) (side : Bool)
    (now : ℤ) (orderSuccess : Bool) : DipState × List DipAction :=
  let riskAllocatedSize := st.walletBalanceUSDT * (1 / 100) / price
  let finalShares : ℚ := min cfg.shares ((⌊riskAllocatedSize⌋ : ℤ) : ℚ)
  if finalShares < 1 then ({ st with phase := Phase.MONITORING }, [])
  else if orderSuccess then
    ({ st with
        phase := Phase.LEG1_FILLED
        leg1FillPrice := price
        leg1Side := some side
        leg1Time := now }, [DipAction.placeLeg1 side price finalShares])
  else
    ({ st with phase := Phase.MONITORING }, [DipAction.placeLeg1 side price finalShares])

/-- `DipArbBot.executeLeg2` (lines 403–458), non-dry-run path: place the
hedge at `config.shares`; on success move to COMPLETE (a 10s cooldown
reset is then scheduled), on failure the state is untouched. -/
def executeLeg2 (cfg : DipConfig) (st : DipState) (price : ℚ) (side : Bool)
    (orderSuccess : Bool) : DipState × List DipAction :=
  if orderSuccess then
    ({ st with phase := Phase.COMPLETE }, [DipAction.placeLeg2 side price cfg.shares])
  else (st, [DipAction.placeLeg2 side price cfg.shares])

/-- `DipArbBot.analyzeOrderbook` (lines 196–324): refresh both price
histories, then in MONITORING check the YES-velocity/depth entry signal
(the NO-velocity branch of the source computes a depth and does nothing
else), and in LEG1_FILLED check the sum-target exit signal. -/
def analyzeOrderbook (cfg : DipConfig) (st : DipState) (ob : OrderbookData)
    (now : ℤ) (isRunning orderSuccess : Bool) : DipState × List DipAction :=
  if !isRunning || st.phase = Phase.COMPLETE then (st, [])
  else if ob.asks.isEmpty || ob.bids.isEmpty then (st, [])
  else
    let bestBidYes := bestBidOf ob
    let bestAskYes := bestAskOf ob
    let currentPriceYes := bestAskYes
    let currentPriceNo := jsToFixed 4 (1 - bestBidYes)
    let yesHistory' := updateHistory cfg.slidingWindowMs st.yesHistory currentPriceYes now
    let noHistory' := updateHistory cfg.slidingWindowMs st.noHistory currentPriceNo now
    let st1 := { st with yesHistory := yesHistory', noHistory := noHistory' }
    match st.phase with
    | Phase.MONITORING =>
      let velocityYes := calculateVelocity yesHistory'
      if velocityYes < cfg.maxVelocity then
        let depth := checkOrderbookDepth ob.asks (currentPriceYes * (101 / 100))
        if cfg.shares * 2 < depth then
          executeLeg1 cfg st1 currentPriceYes true now orderSuccess
        else (st1, [])
      else
        -- `else if (velocityNo < maxVelocity)`: the branch body only
        -- computes a depth; it contains no executable trade logic.
        (st1, [])
    | Phase.LEG1_FILLED =>
      let targetIsYes := !(st.leg1Side.getD true)
      let targetPrice := if targetIsYes then currentPriceYes else currentPriceNo
      let totalCost := st.leg1FillPrice + targetPrice
      if totalCost ≤ cfg.sumTarget then
        executeLeg2 cfg st1 targetPrice targetIsYes orderSuccess
      else (st1, [])
    | Phase.COMPLETE => (st1, [])

/-- `DipArbBot.checkLeg2Timeout` (lines 493–540), run on a 1s timer:
once the leg-2 timeout has elapsed, snooze 5s if momentum on the held
side is still below `-0.05`, otherwise place the soft-hedge ladder
price if one keeps the sum target, else snooze holding the naked leg. -/
def checkLeg2Timeout (cfg : DipConfig) (st : DipState) (now : ℤ)
    (latestOrderbook : Option OrderbookData) (orderSuccess : Bool) :
    DipState × List DipAction :=
  if st.phase ≠ Phase.LEG1_FILLED then (st, [])
  else if !(cfg.leg2Timeout < now - st.leg1Time : Bool) then (st, [])
  else
    let currentVelocity :=
      if st.leg1Side.getD true then calculateVelocity st.yesHistory
      else calculateVelocity st.noHistory
    if currentVelocity < -5 / 100 then ({ st with leg1Time := st.leg1Time + 5000 }, [])
    else
      let targetIsYes := !(st.leg1Side.getD true)
      let currentOppPrice : ℚ :=
        match latestOrderbook with
        | none => 0
        | some ob =>
          if targetIsYes then (ob.asks.headD (0, 0)).1
          else
            let bestBid := (ob.bids.headD (0, 0)).1
            if bestBid = 0 then 0 else jsToFixed 4 (1 - bestBid)
      if currentOppPrice = 0 then (st, [])
      else
        match trySoftHedgeLadder cfg st.leg1FillPrice with
        | none => ({ st with leg1Time := st.leg1Time + 5000 }, [])
        | some hedgePrice => executeLeg2 cfg st hedgePrice targetIsYes orderSuccess

/-- The 10s cooldown callback scheduled when `executeLeg2` succeeds
(lines 441–446): reset to MONITORING and clear the leg-1 record.  It is
only ever scheduled on entering COMPLETE, hence the phase guard. -/
def dipCooldownReset (st : DipState) : DipState :=
  if st.phase = Phase.COMPLETE then
    { st with phase := Phase.MONITORING, leg1Side := none, leg1FillPrice := 0 }
  else st

/-- The events driving `DipArbBot`'s state, with external order results
supplied as oracles. -/
inductive DipEvent where
  | orderbookPush (ob : OrderbookData) (now : ℤ) (orderSuccess : Bool)
  | timeoutTick (now : ℤ) (latestOrderbook : Option OrderbookData) (orderSuccess : Bool)
  | cooldownElapsed
  deriving DecidableEq

/-- The combined step relation of the dip state machine. -/
def dipStep (cfg : DipConfig) (st : DipState) : DipEvent → DipState × List DipAction
  | DipEvent.orderbookPush ob now orderSuccess =>
    analyzeOrderbook cfg st ob now true orderSuccess
  | DipEvent.timeoutTick now latestOb orderSuccess =>
    checkLeg2Timeout cfg st now latestOb orderSuccess
  | DipEvent.cooldownElapsed => (dipCooldownReset st, [])

/-- The initial `DipArbBot` state (constructor defaults). -/
def initialDipState : DipState :=
  { phase := Phase.MONITORING
    yesHistory := []
    noHistory := []
    leg1FillPrice := 0
    leg1Side := none
    leg1Time := 0
    walletBalanceUSDT := 100 }

/-- States reachable from the initial state by engine steps. -/
inductive DipReachable (cfg : DipConfig) : DipState → Prop where
  | init : DipReachable cfg initialDipState
  | step (st : DipState) (e : DipEvent) :
      DipReachable cfg st → DipReachable cfg (dipStep cfg st e).1

/-! ## Helper lemmas -/

theorem firstBidLE_le {bound : ℚ} :
    ∀ {ls : List OrderbookItem} {w : ℚ}, firstBidLE ls bound = some w → w ≤ bound := by
  intro ls
  induction ls with
  | nil => intro w h; simp [firstBidLE] at h
  | cons l rest ih =>
    intro w h
    rw [firstBidLE] at h
    by_cases hc : l.1 ≤ bound
    · rw [if_pos hc] at h
      cases h
      exact hc
    · rw [if_neg hc] at h
      exact ih h

theorem firstAskGE_ge {bound : ℚ} :
    ∀ {ls : List OrderbookItem} {w : ℚ}, firstAskGE ls bound = some w → bound ≤ w := by
  intro ls
  induction ls with
  | nil => intro w h; simp [firstAskGE] at h
  | cons l rest ih =>
    intro w h
    rw [firstAskGE] at h
    by_cases hc : bound ≤ l.1
    · rw [if_pos hc] at h
      cases h
      exact hc
    · rw [if_neg hc] at h
      exact ih h

theorem snapFloor_le (p : ℕ) (x : ℚ) : snapFloor p x ≤ x := by
  have hE : (0 : ℚ) < 10 ^ p := by positivity
  rw [snapFloor, div_le_iff₀ hE]
  exact Int.floor_le _

theorem le_snapCeil (p : ℕ) (x : ℚ) : x ≤ snapCeil p x := by
  have hE : (0 : ℚ) < 10 ^ p := by positivity
  rw [snapCeil, le_div_iff₀ hE]
  exact Int.le_ceil _

theorem jsToFixed_intCast_div (p : ℕ) (m : ℤ) :
    jsToFixed p ((m : ℚ) / 10 ^ p) = (m : ℚ) / 10 ^ p := by
  have hE : (10 : ℚ) ^ p ≠ 0 := by positivity
  rw [jsToFixed, div_mul_cancel₀ _ hE, round_intCast]

theorem jsToFixed_snapFloor (p : ℕ) (x : ℚ) :
    jsToFixed p (snapFloor p x) = snapFloor p x := by
  rw [snapFloor]
  exact jsToFixed_intCast_div p _

theorem jsToFixed_snapCeil (p : ℕ) (x : ℚ) :
    jsToFixed p (snapCeil p x) = snapCeil p x := by
  rw [snapCeil]
  exact jsToFixed_intCast_div p _

/-! ## C6 -/

/-- The dip-bot state used for the C6 scenario: leg 1 filled as YES at
price 0.40, so leg 2 targets the NO side. -/
def c6State : DipState :=
  { phase := Phase.LEG1_FILLED, yesHistory := [], noHistory := [],
    leg1FillPrice := 40 / 100, leg1Side := some true, leg1Time := 0,
    walletBalanceUSDT := 100 }

/-- Snapshot giving a synthetic NO price of `1 - 0.58 = 0.42`. -/
def c6ObAccept : OrderbookData := { bids := [(58 / 100, 5)], asks := [(60 / 100, 5)] }

/-- Snapshot giving a synthetic NO price of `1 - 0.50 = 0.50`. -/
def c6ObReject : OrderbookData := { bids := [(50 / 100, 5)], asks := [(60 / 100, 5)] }

/-- **C6.** In state LEG1_FILLED with leg-1 fill price 0.40 and sum
target 0.85, an opposite-side price of 0.42 is accepted as leg 2
(0.40 + 0.42 = 0.82 ≤ 0.85, the COMPLETE transition fires and the hedge
BUY is placed) and 0.50 is rejected (0.90 > 0.85, no order); and the
soft-hedge ladder search returns the first (hence highest) rung `p` of
its descending ladder with `leg1FillPrice + p ≤ sumTarget`, and no
price when no rung satisfies it. -/
theorem c6_sum_target_and_ladder :
    ((analyzeOrderbook defaultDipConfig c6State c6ObAccept 1000 true true).2
          = [DipAction.placeLeg2 false (42 / 100) 50]
      ∧ (analyzeOrderbook defaultDipConfig c6State c6ObAccept 1000 true true).1.phase
          = Phase.COMPLETE)
    ∧ ((analyzeOrderbook defaultDipConfig c6State c6ObReject 1000 true true).2 = []
      ∧ (analyzeOrderbook defaultDipConfig c6State c6ObReject 1000 true true).1.phase
          = Phase.LEG1_FILLED)
    ∧ (∀ (cfg : DipConfig) (l p : ℚ), trySoftHedgeLadder cfg l = some p →
        p ∈ ladders ∧ l + p ≤ cfg.sumTarget
          ∧ ∀ q ∈ ladders, p < q → cfg.sumTarget < l + q)
    ∧ (∀ (cfg : DipConfig) (l : ℚ), trySoftHedgeLadder cfg l = none →
        ∀ q ∈ ladders, cfg.sumTarget < l + q) := by
  refine ⟨?_, ?_, ?_, ?_⟩
  · constructor <;>
      · norm_num [analyzeOrderbook, executeLeg2, updateHistory, pruneHistory,
          bestBidOf, bestAskOf, jsToFixed, round_eq, defaultDipConfig, c6State, c6ObAccept]
        simp
  · constructor <;>
      · norm_num [analyzeOrderbook, executeLeg2, updateHistory, pruneHistory,
          bestBidOf, bestAskOf, jsToFixed, round_eq, defaultDipConfig, c6State, c6ObReject]
        simp
  · intro cfg l p h
    rw [trySoftHedgeLadder, ladders] at h
    simp only [List.find?] at h
    by_cases h1 : l + 85 / 100 ≤ cfg.sumTarget
    · rw [decide_eq_true h1] at h
      cases h
      refine ⟨by simp [ladders], h1, ?_⟩
      intro q hq hlt
      fin_cases hq <;> linarith
    · rw [decide_eq_false h1] at h
      by_cases h2 : l + 80 / 100 ≤ cfg.sumTarget
      · rw [decide_eq_true h2] at h
        cases h
        refine ⟨by simp [ladders], h2, ?_⟩
        intro q hq hlt
        fin_cases hq <;> [skip; linarith; linarith; linarith]
        · exact lt_of_not_le h1
      · rw [decide_eq_false h2] at h
        by_cases h3 : l + 75 / 100 ≤ cfg.sumTarget
        · rw [decide_eq_true h3] at h
          cases h
          refine ⟨by simp [ladders], h3, ?_⟩
          intro q hq hlt
          fin_cases hq <;> [skip; skip; linarith; linarith]
          · exact lt_of_not_le h1
          · exact lt_of_not_le h2
        · rw [decide_eq_false h3] at h
          by_cases h4 : l + 70 / 100 ≤ cfg.sumTarget
          · rw [decide_eq_true h4] at h
            cases h
            refine ⟨by simp [ladders], h4, ?_⟩
            intro q hq hlt
            fin_cases hq <;> [skip; skip; skip; linarith]
            · exact lt_of_not_le h1
            · exact lt_of_not_le h2
            · exact lt_of_not_le h3
          · rw [decide_eq_false h4] at h
            simp at h
  · intro cfg l h q hq
    rw [trySoftHedgeLadder, ladders] at h
    simp only [List.find?] at h
    by_cases h1 : l + 85 / 100 ≤ cfg.sumTarget
    · rw [decide_eq_true h1] at h; simp at h
    · rw [decide_eq_false h1] at h
      by_cases h2 : l + 80 / 100 ≤ cfg.sumTarget
      · rw [decide_eq_true h2] at h; simp at h
      · rw [decide_eq_false h2] at h
        by_cases h3 : l + 75 / 100 ≤ cfg.sumTarget
        · rw [decide_eq_true h3] at h; simp at h
        · rw [decide_eq_false h3] at h
          by_cases h4 : l + 70 / 100 ≤ cfg.sumTarget
          · rw [decide_eq_true h4] at h; simp at h
          · fin_cases hq
            · exact lt_of_not_le h1
            · exact lt_of_not_le h2
            · exact lt_of_not_le h3
            · exact lt_of_not_le h4

/-- Witness for C6: the ladder result for a leg-1 fill at 0.01 under
the default sum target 0.85 is the first rung 0.80, it is a ladder
member, it respects the sum target, and every higher rung breaks it. -/
theorem c6_sum_target_and_ladder_witness :
    (80 : ℚ) / 100 ∈ ladders
      ∧ (1 : ℚ) / 100 + 80 / 100 ≤ defaultDipConfig.sumTarget
      ∧ ∀ q ∈ ladders, (80 : ℚ) / 100 < q →
          defaultDipConfig.sumTarget < (1 : ℚ) / 100 + q :=
  c6_sum_target_and_ladder.2.2.1 defaultDipConfig (1 / 100) (80 / 100)
    (by norm_num [trySoftHedgeLadder, ladders, List.find?, defaultDipConfig])

/-! ## C5 -/

set_option maxRecDepth 8000 in
/-- Structure of `k + 1` consecutive non-clean closes when exactly `k`
retry budget is left: the first `k` closes schedule backoff retries, the
final one delivers the terminal disconnect error to every registered
callback and schedules nothing. -/
theorem runCloses_terminal (N cap : ℕ) (subs : List (String × List ℕ)) :
    ∀ (k a : ℕ), a + k = N →
      runCloses N cap (k + 1) { connectionAttempts := a, subscriptions := subs }
        = ({ connectionAttempts := N + 1, subscriptions := subs },
           ((List.range k).map
              (fun i => WsEffect.retryAfter (min (2 ^ (a + i) * 1000) cap)))
             ++ (subs.map (fun s => s.2)).flatten.map WsEffect.deliverDisconnectError) := by
  intro k
  induction k with
  | zero =>
    intro a ha
    have ha' : a = N := by omega
    subst ha'
    rw [runCloses, runCloses]
    have hnot : ¬ a < a := lt_irrefl a
    simp only [reconnectStep, if_neg hnot, allCallbacks]
    simp only [List.append_nil, List.nil_append, List.range_zero, List.map_nil]
  | succ k ih =>
    intro a ha
    have haN : a < N := by omega
    rw [runCloses]
    simp only [reconnectStep, if_pos haN]
    rw [ih (a + 1) (by omega)]
    refine Prod.ext rfl ?_
    have hfun : (List.range (k + 1)).map
        (fun i => WsEffect.retryAfter (min (2 ^ (a + i) * 1000) cap))
        = WsEffect.retryAfter (min (2 ^ a * 1000) cap)
          :: (List.range k).map
              (fun i => WsEffect.retryAfter (min (2 ^ (a + 1 + i) * 1000) cap)) := by
      rw [List.range_succ_eq_map, List.map_cons, List.map_map]
      simp only [Nat.add_zero]
      congr 1
      refine List.map_congr_left ?_
      intro i _
      simp only [Function.comp_apply]
      have h2 : a + (i + 1) = a + 1 + i := by omega
      rw [h2]
    rw [hfun, List.cons_append]
    simp

/-- One reconnect invocation always post-increments the attempt
counter, and a below-budget invocation schedules exactly the backoff
delay `min(2^attempt * 1000, maxRetryInterval)`. -/
theorem reconnectStep_increments (N cap : ℕ) (st : WsClientState) :
    (reconnectStep N cap st).1.connectionAttempts = st.connectionAttempts + 1
      ∧ (st.connectionAttempts < N →
          (reconnectStep N cap st).2
            = [WsEffect.retryAfter (min (2 ^ st.connectionAttempts * 1000) cap)]) := by
  constructor
  · rw [reconnectStep]
    split <;> rfl
  · intro h
    rw [reconnectStep]
    simp [h]

/-- The start state used for the C5 counterexample: a fresh connection
(attempt counter 0) with one callback registered on one topic. -/
def c5Start : WsClientState :=
  { connectionAttempts := 0, subscriptions := [("predictOrderbook/1", [0])] }

/-- **C5, counterexample.** With `maxConnAttempts = 2`, after 2
consecutive non-clean closes the client has only scheduled the two
backoff retries and the registered callback has received zero terminal
disconnect errors (the claim demands exactly one after N = 2 closes);
the terminal error in fact requires an (N+1)-th close. -/
theorem c5_counterexample :
    (runCloses 2 5000 2 c5Start).2
        = [WsEffect.retryAfter 1000, WsEffect.retryAfter 2000]
      ∧ (runCloses 2 5000 2 c5Start).2.count (WsEffect.deliverDisconnectError 0) = 0
      ∧ (runCloses 2 5000 3 c5Start).2.count (WsEffect.deliverDisconnectError 0) = 1 := by
  refine ⟨?_, ?_, ?_⟩ <;> decide

/-- **C5, amended.** After `N + 1` consecutive non-clean closes, where
`N` is the configured maximum connection attempts: the first `N` closes
each schedule one reconnect with backoff delay
`min(2^attempt * base, capMs)` (base = 1000 ms, attempt running from 0),
the final close delivers exactly one terminal disconnect error to every
registered callback in registry order and schedules no further
reconnect, and the attempt counter has been incremented on every try
(ending at `N + 1`). -/
theorem c5_amended (N cap : ℕ) (subs : List (String × List ℕ)) :
    runCloses N cap (N + 1) { connectionAttempts := 0, subscriptions := subs }
      = ({ connectionAttempts := N + 1, subscriptions := subs },
         ((List.range N).map (fun k => WsEffect.retryAfter (min (2 ^ k * 1000) cap)))
           ++ (subs.map (fun s => s.2)).flatten.map WsEffect.deliverDisconnectError)
    ∧ ∀ c : ℕ,
        (runCloses N cap (N + 1)
            { connectionAttempts := 0, subscriptions := subs }).2.count
            (WsEffect.deliverDisconnectError c)
          = (subs.map (fun s => s.2)).flatten.count c := by
  have hmain := runCloses_terminal N cap subs N 0 (by omega)
  simp only [Nat.zero_add] at hmain
  refine ⟨hmain, ?_⟩
  intro c
  rw [hmain]
  simp only [List.count_append]
  have hretry : ((List.range N).map
      (fun k => WsEffect.retryAfter (min (2 ^ k * 1000) cap))).count
      (WsEffect.deliverDisconnectError c) = 0 := by
    rw [List.count_eq_zero]
    intro h
    rcases List.mem_map.mp h with ⟨i, _, hi⟩
    exact absurd hi (by simp)
  rw [hretry]
  rw [List.count_map_of_injective _ WsEffect.deliverDisconnectError
    (fun a b h => by cases h; rfl) c]
  omega

/-! ## C8 -/

/-- Unfolding equation of `dumpLoop` for a successful positions
response. -/
theorem dumpLoop_cons_some (ps : List (Bool × ℚ)) (rest : List DumpResponse) :
    dumpLoop (some ps :: rest)
      = (if (((ps.filter (fun p => dustThreshold < p.2)).map (fun p => p.2)).sum : ℚ) = 0
          then some [DumpAction.cancelAllResting]
          else (dumpLoop rest).map (fun t =>
            DumpAction.cancelAllResting
              :: ((ps.filter (fun p => dustThreshold < p.2)).map
                    (fun p => DumpAction.marketSell p.1 p.2)) ++ t)) := rfl

/-- A terminating dump loop starts with a `cancelAllOrders` invocation:
no market-sell can precede the first cancel. -/
theorem dumpLoop_head :
    ∀ (env : List DumpResponse) (t : List DumpAction), dumpLoop env = some t →
      ∃ t', t = DumpAction.cancelAllResting :: t' := by
  intro env
  induction env with
  | nil => intro t h; simp [dumpLoop] at h
  | cons r rest ih =>
    intro t h
    cases r with
    | none =>
      rw [show dumpLoop (none :: rest)
          = (dumpLoop rest).map (fun t => DumpAction.cancelAllResting :: t) from rfl] at h
      rcases Option.map_eq_some'.mp h with ⟨x, _, rfl⟩
      exact ⟨x, rfl⟩
    | some ps =>
      rw [dumpLoop_cons_some] at h
      by_cases hz : (((ps.filter (fun p => dustThreshold < p.2)).map (fun p => p.2)).sum : ℚ) = 0
      · rw [if_pos hz] at h
        cases h
        exact ⟨[], rfl⟩
      · rw [if_neg hz] at h
        rcases Option.map_eq_some'.mp h with ⟨x, _, rfl⟩
        exact ⟨_, rfl⟩

/-- A terminating dump loop has consumed a positions response in which
no balance exceeds the dust threshold (the break condition). -/
theorem dumpLoop_clean_exists :
    ∀ (env : List DumpResponse) (t : List DumpAction), dumpLoop env = some t →
      ∃ (k : ℕ) (ps : List (Bool × ℚ)), env.get? k = some (some ps)
        ∧ ∀ p ∈ ps, p.2 ≤ dustThreshold := by
  intro env
  induction env with
  | nil => intro t h; simp [dumpLoop] at h
  | cons r rest ih =>
    intro t h
    cases r with
    | none =>
      rw [show dumpLoop (none :: rest)
          = (dumpLoop rest).map (fun t => DumpAction.cancelAllResting :: t) from rfl] at h
      rcases Option.map_eq_some'.mp h with ⟨x, hx, rfl⟩
      rcases ih x hx with ⟨k, ps, hk, hps⟩
      exact ⟨k + 1, ps, hk, hps⟩
    | some ps =>
      rw [dumpLoop_cons_some] at h
      by_cases hz : (((ps.filter (fun p => dustThreshold < p.2)).map (fun p => p.2)).sum : ℚ) = 0
      · refine ⟨0, ps, rfl, ?_⟩
        have hfilter : ps.filter (fun p => dustThreshold < p.2) = [] := by
          by_contra hne
          have hpos : (0 : ℚ) <
              ((ps.filter (fun p => dustThreshold < p.2)).map (fun p => p.2)).sum := by
            apply List.sum_pos
            · intro x hx
              rcases List.mem_map.mp hx with ⟨q, hq, rfl⟩
              have := (List.mem_filter.mp hq).2
              have hlt : dustThreshold < q.2 := by simpa using this
              have hdust : (0 : ℚ) < dustThreshold := by norm_num [dustThreshold]
              linarith
            · simpa using hne
          exact absurd hz (by linarith)
        intro p hp
        by_contra hgt
        have hmem : p ∈ ps.filter (fun p => dustThreshold < p.2) :=
          List.mem_filter.mpr ⟨hp, by simpa using lt_of_not_le hgt⟩
        rw [hfilter] at hmem
        exact absurd hmem (List.not_mem_nil p)
      · rw [if_neg hz] at h
        rcases Option.map_eq_some'.mp h with ⟨x, hx, _⟩
        rcases ih x hx with ⟨k, ps', hk, hps⟩
        exact ⟨k + 1, ps', hk, hps⟩

/-- **C8, counterexample.** A positions response whose single YES
balance equals the dust threshold exactly (0.1 shares): the dump loop
declares the inventory clean and breaks (so the resume cooldown is
scheduled), although that balance is not strictly below the dust
threshold as the claim requires. -/
theorem c8_counterexample :
    dumpLoop [some [(true, dustThreshold)]] = some [DumpAction.cancelAllResting]
      ∧ ¬ (dustThreshold < dustThreshold) := by
  constructor
  · norm_num [dumpLoop, dustThreshold]
  · exact lt_irrefl _

/-- **C8, amended.** On an `orderTransactionSuccess` wallet-fill push
the controller sets the exiting and halted flags before any other
action; the dump loop's first action is a cancel-all (no market-sell
precedes it); the loop breaks — after which the resume cooldown of
`dumpCooldownMs` is scheduled — only once a positions response shows
every outcome balance at or below (not strictly below) the dust
threshold; and the resume callback clears halted/exiting and resets the
requote counter to zero. -/
theorem c8_wallet_fill_dump (st : QuoteState) (env : List DumpResponse)
    (t : List DumpAction) (hdump : dumpLoop env = some t) :
    ((onWalletEvent st "orderTransactionSuccess").1.isExiting = true
      ∧ (onWalletEvent st "orderTransactionSuccess").1.isTradingHalted = true)
    ∧ (∃ t', t = DumpAction.cancelAllResting :: t')
    ∧ (∃ (k : ℕ) (ps : List (Bool × ℚ)), env.get? k = some (some ps)
        ∧ ∀ p ∈ ps, p.2 ≤ dustThreshold)
    ∧ ((resumeAfterDump st).isExiting = false
      ∧ (resumeAfterDump st).isTradingHalted = false
      ∧ (resumeAfterDump st).requoteCount = 0) := by
  refine ⟨⟨?_, ?_⟩, dumpLoop_head env t hdump, dumpLoop_clean_exists env t hdump, ?_, ?_, ?_⟩
  · rw [onWalletEvent]
    simp
  · rw [onWalletEvent]
    simp
  · rfl
  · rfl
  · rfl

/-- A generic idle controller state, used to instantiate witnesses. -/
def sampleQuoteState : QuoteState :=
  { isRunning := true, isExiting := false, isTradingHalted := false,
    isDumping := false, isUpdating := false, requoteCount := 0,
    lastRequoteReset := 0, lastOrderTime := 0, needsRequote := false,
    currentBid := 0, currentAsk := 0, lastQuotedBid := none, lastQuotedAsk := none }

/-- Witness for C8: a wallet fill followed by a dump loop whose single
positions response is already clean. -/
theorem c8_wallet_fill_dump_witness :
    ((onWalletEvent sampleQuoteState "orderTransactionSuccess").1.isExiting = true
      ∧ (onWalletEvent sampleQuoteState "orderTransactionSuccess").1.isTradingHalted = true)
    ∧ (∃ t', [DumpAction.cancelAllResting] = DumpAction.cancelAllResting :: t')
    ∧ (∃ (k : ℕ) (ps : List (Bool × ℚ)),
        ([some []] : List DumpResponse).get? k = some (some ps)
          ∧ ∀ p ∈ ps, p.2 ≤ dustThreshold)
    ∧ ((resumeAfterDump sampleQuoteState).isExiting = false
      ∧ (resumeAfterDump sampleQuoteState).isTradingHalted = false
      ∧ (resumeAfterDump sampleQuoteState).requoteCount = 0) :=
  c8_wallet_fill_dump sampleQuoteState [some []] [DumpAction.cancelAllResting]
    (by simp [dumpLoop])

/-! ## C3 -/

/-- **C3, counterexample.** A cycle whose positions query fails
(`posQuery = none`) with a clean book: far from skipping quoting, the
cycle places both full-size BUY orders. -/
theorem c3_counterexample :
    updateOrders defaultConfig 2 (47 / 100) (53 / 100) false false
        { posQuery := none, cancelResponses := [false] }
      = some [QuoteAction.cancelAllResting,
              QuoteAction.placeLimit true (47 / 100) 50,
              QuoteAction.placeLimit false (47 / 100) 50]
    ∧ QuoteAction.placeLimit true (47 / 100) 50
        ∈ [QuoteAction.cancelAllResting,
           QuoteAction.placeLimit true (47 / 100) 50,
           QuoteAction.placeLimit false (47 / 100) 50] := by
  constructor
  · norm_num [updateOrders, cancelLoop, defaultConfig, jsToFixed, round_eq]
  · simp

/-- **C3, amended.** When the per-outcome position query fails during
the exposure check, the cycle proceeds with both positions defaulted to
zero — behaving exactly as if the account were flat (the "Exposure
check skipped" path) — and, when the cancel loop confirms a clean book
at once and the configured size exceeds one share, it places both BUY
orders at the full configured size. -/
theorem c3_amended (cfg : BotConfig) (precision : ℕ) (bid ask : ℚ)
    (halted exiting : Bool) (rs : List Bool) (hsz : 1 < cfg.SIZE) :
    updateOrders cfg precision bid ask halted exiting
        { posQuery := none, cancelResponses := rs }
      = updateOrders cfg precision bid ask halted exiting
        { posQuery := some (0, 0), cancelResponses := rs }
    ∧ (halted = false → exiting = false →
        updateOrders cfg precision bid ask halted exiting
            { posQuery := none, cancelResponses := [false] }
          = some [QuoteAction.cancelAllResting,
                  QuoteAction.placeLimit true (jsToFixed precision bid) ((⌊cfg.SIZE⌋ : ℤ) : ℚ),
                  QuoteAction.placeLimit false (jsToFixed precision (1 - ask))
                    ((⌊cfg.SIZE⌋ : ℤ) : ℚ)]) := by
  constructor
  · rfl
  · intro hh he
    subst hh he
    have hS0 : (0 : ℚ) ≤ cfg.SIZE := by linarith
    rw [updateOrders]
    simp only [Bool.or_self, Bool.false_eq_true, if_false,
      show cancelLoop [false] = some (false, [QuoteAction.cancelAllResting]) from rfl,
      Option.getD_none, sub_zero, max_eq_right hS0, min_self]
    rw [if_neg (by push_neg; intro h; linarith)]
    rw [if_neg (by push_neg; intro h; linarith)]
    rw [if_pos (by linarith), if_pos (by linarith)]
    simp

/-- Witness for C3 (amended): the concrete failed-query cycle places
both orders at the default full size of 50 shares. -/
theorem c3_amended_witness :
    updateOrders defaultConfig 2 (48 / 100) (52 / 100) false false
        { posQuery := none, cancelResponses := [false] }
      = some [QuoteAction.cancelAllResting,
              QuoteAction.placeLimit true (jsToFixed 2 (48 / 100)) ((⌊defaultConfig.SIZE⌋ : ℤ) : ℚ),
              QuoteAction.placeLimit false (jsToFixed 2 (1 - 52 / 100))
                ((⌊defaultConfig.SIZE⌋ : ℤ) : ℚ)] :=
  (c3_amended defaultConfig 2 (48 / 100) (52 / 100) false false [false]
    (by norm_num [defaultConfig])).2 rfl rfl

/-! ## C2 -/

/-- **C2.** When the requote counter exceeds the ceiling (5) inside the
rolling 10s reset window, the cycle sets the halted flag, performs
exactly one cancel-all of this market's resting orders and nothing else;
any cycle entered while halted performs no action at all (and
`updateOrders` places nothing while halted); and the scheduled cooldown
callback resumes quoting with the requote counter reset to zero. -/
theorem c2_kill_switch (cfg : BotConfig) (precision : ℕ) (now : ℤ)
    (st : QuoteState) (ob : OrderbookData) (env : QuoteEnv)
    (hrun : st.isRunning = true) (hex : st.isExiting = false)
    (hhalt : st.isTradingHalted = false) (hdump : st.isDumping = false)
    (hupd : st.isUpdating = false)
    (hwin : now - st.lastRequoteReset ≤ 10000)
    (hcount : 5 < st.requoteCount) :
    onOrderbookUpdate cfg precision now st ob env
        = some ({ st with isTradingHalted := true }, [QuoteAction.cancelAllResting])
    ∧ (∀ st2 : QuoteState, st2.isTradingHalted = true →
        onOrderbookUpdate cfg precision now st2 ob env = some (st2, []))
    ∧ (∀ (b a : ℚ) (exiting : Bool) (env2 : QuoteEnv),
        updateOrders cfg precision b a true exiting env2 = some [])
    ∧ ((killSwitchResume st).isTradingHalted = false
        ∧ (killSwitchResume st).requoteCount = 0) := by
  refine ⟨?_, ?_, ?_, rfl, rfl⟩
  · simp only [onOrderbookUpdate, hrun, hex, hhalt, hdump, hupd, Bool.not_true,
      Bool.or_false, Bool.false_or, Bool.or_self, Bool.false_eq_true, if_false,
      if_neg (not_lt.mpr hwin), if_pos hcount]
  · intro st2 h2
    simp [onOrderbookUpdate, h2]
  · intro b a exiting env2
    rw [updateOrders]
    simp

/-- The tripped state used for the C2 witness: six requotes already
recorded inside the current window. -/
def c2TrippedState : QuoteState :=
  { sampleQuoteState with requoteCount := 6 }

/-- Witness for C2: the concrete tripped cycle halts and cancels. -/
theorem c2_kill_switch_witness :
    onOrderbookUpdate defaultConfig 2 500 c2TrippedState
        { bids := [(48 / 100, 10)], asks := [(52 / 100, 10)] }
        { posQuery := some (0, 0), cancelResponses := [false] }
      = some ({ c2TrippedState with isTradingHalted := true },
              [QuoteAction.cancelAllResting]) :=
  (c2_kill_switch defaultConfig 2 500 c2TrippedState
    { bids := [(48 / 100, 10)], asks := [(52 / 100, 10)] }
    { posQuery := some (0, 0), cancelResponses := [false] }
    rfl rfl rfl rfl rfl (by norm_num [c2TrippedState, sampleQuoteState])
    (by norm_num [c2TrippedState, sampleQuoteState])).1

/-! ## C4 -/

/-- A drift-flagged state whose current quotes already equal the
targets for `c4Book`, so both requote diffs are zero. -/
def c4DriftState : QuoteState :=
  { sampleQuoteState with
      needsRequote := true
      currentBid := 47 / 100
      currentAsk := 53 / 100 }

def c4Book : OrderbookData := { bids := [(48 / 100, 10)], asks := [(52 / 100, 10)] }

def c4Env : QuoteEnv := { posQuery := some (0, 0), cancelResponses := [false] }

/-- The state persisted by the drift-forced cycle of the C4
counterexample. -/
def c4ResultState : QuoteState :=
  { c4DriftState with
      lastOrderTime := 1000
      needsRequote := false
      lastQuotedBid := some (47 / 100)
      lastQuotedAsk := some (53 / 100) }

/-- **C4, counterexample.** A drift-forced cycle (`needsRequote = true`,
both diffs zero) proceeds to cancel and place both orders, yet the
requote counter stays at its old value — the claim demands an increment
on every proceed including the forced-drift one. -/
theorem c4_counterexample :
    onOrderbookUpdate defaultConfig 2 1000 c4DriftState c4Book c4Env
        = some (c4ResultState,
            [QuoteAction.cancelAllResting,
             QuoteAction.placeLimit true (47 / 100) 50,
             QuoteAction.placeLimit false (47 / 100) 50])
      ∧ c4ResultState.requoteCount = c4DriftState.requoteCount
      ∧ QuoteAction.placeLimit true (47 / 100) 50
          ∈ [QuoteAction.cancelAllResting,
             QuoteAction.placeLimit true (47 / 100) 50,
             QuoteAction.placeLimit false (47 / 100) 50] := by
  refine ⟨?_, rfl, by simp⟩
  norm_num [onOrderbookUpdate, updateOrders, cancelLoop, computeTargets, bestBidOf, bestAskOf,
    firstBidLE, firstAskGE, snapFloor, snapCeil, tickOf, jsToFixed, round_eq,
    defaultConfig, c4DriftState, c4Book, c4Env, c4ResultState, sampleQuoteState]

/-- **C4, amended.** In the requote decision (guards passed, kill
switch not tripped): with the drift flag unset and neither diff above
the threshold the cycle returns with no cancel and no placement; a
threshold-triggered proceed (drift flag unset) increments the requote
counter by exactly one; a drift-forced proceed leaves it unchanged. -/
theorem c4_requote_decision (cfg : BotConfig) (precision : ℕ) (now : ℤ)
    (st : QuoteState) (ob : OrderbookData) (env : QuoteEnv)
    (hrun : st.isRunning = true) (hex : st.isExiting = false)
    (hhalt : st.isTradingHalted = false) (hdump : st.isDumping = false)
    (hupd : st.isUpdating = false)
    (hwin : now - st.lastRequoteReset ≤ 10000)
    (hks : st.requoteCount ≤ 5)
    (hbids : ob.bids.isEmpty = false) (hasks : ob.asks.isEmpty = false) :
    (st.needsRequote = false →
      |(computeTargets cfg.MIN_DIST_FROM_MID precision ob).1 - st.currentBid|
          ≤ cfg.REQUOTE_THRESHOLD →
      |(computeTargets cfg.MIN_DIST_FROM_MID precision ob).2 - st.currentAsk|
          ≤ cfg.REQUOTE_THRESHOLD →
      onOrderbookUpdate cfg precision now st ob env = some (st, []))
    ∧ (st.needsRequote = false →
      cfg.PRICE_ADJUST_INTERVAL ≤ now - st.lastOrderTime →
      (cfg.REQUOTE_THRESHOLD < |(computeTargets cfg.MIN_DIST_FROM_MID precision ob).1
            - st.currentBid|
        ∨ cfg.REQUOTE_THRESHOLD < |(computeTargets cfg.MIN_DIST_FROM_MID precision ob).2
            - st.currentAsk|) →
      ∀ (st' : QuoteState) (acts : List QuoteAction),
        onOrderbookUpdate cfg precision now st ob env = some (st', acts) →
          st'.requoteCount = st.requoteCount + 1)
    ∧ (st.needsRequote = true →
      ∀ (st' : QuoteState) (acts : List QuoteAction),
        onOrderbookUpdate cfg precision now st ob env = some (st', acts) →
          st'.requoteCount = st.requoteCount) := by
  obtain ⟨run, ex, halt, dump, upd, rc, lrr, lot, nr, cb, ca, lqb, lqa⟩ := st
  dsimp only at hrun hex hhalt hdump hupd hwin hks ⊢
  subst hrun hex hhalt hdump hupd
  refine ⟨?_, ?_, ?_⟩
  · intro hneeds h1 h2
    subst hneeds
    have hno : ¬ (cfg.REQUOTE_THRESHOLD
          < |(computeTargets cfg.MIN_DIST_FROM_MID precision ob).1 - cb|
        ∨ cfg.REQUOTE_THRESHOLD
          < |(computeTargets cfg.MIN_DIST_FROM_MID precision ob).2 - ca|) := by
      push_neg
      exact ⟨h1, h2⟩
    simp only [onOrderbookUpdate, Bool.not_true, Bool.not_false, Bool.or_false,
      Bool.false_or, Bool.or_self, Bool.false_eq_true, if_false,
      if_neg (not_lt.mpr hwin), if_neg (not_lt.mpr hks)]
    split_ifs with ht hb hd
    · rfl
    · rfl
    · rfl
    · exact absurd (by simp [decide_eq_false hno]) hd
  · intro hneeds htime hor st' acts heq
    subst hneeds
    rw [onOrderbookUpdate] at heq
    simp only [Bool.not_true, Bool.not_false, Bool.or_false, Bool.false_or,
      Bool.or_self, Bool.false_eq_true, if_false,
      if_neg (not_lt.mpr hwin), if_neg (not_lt.mpr hks), Bool.true_and,
      decide_eq_false (not_lt.mpr htime), hbids, hasks, decide_eq_true hor,
      Bool.not_true, Bool.and_false, Bool.or_false, if_true] at heq
    rcases hupdate : updateOrders cfg precision
        (computeTargets cfg.MIN_DIST_FROM_MID precision ob).1
        (computeTargets cfg.MIN_DIST_FROM_MID precision ob).2
        false false env with _ | acts0 <;>
      simp only [hupdate, Option.some.injEq, Prod.mk.injEq,
        reduceCtorEq, false_and] at heq
    obtain ⟨hst, -⟩ := heq
    rw [← hst]
  · intro hneeds st' acts heq
    subst hneeds
    rw [onOrderbookUpdate] at heq
    simp only [Bool.not_true, Bool.not_false, Bool.or_false, Bool.false_or,
      Bool.or_self, Bool.false_eq_true, if_false,
      if_neg (not_lt.mpr hwin), if_neg (not_lt.mpr hks), Bool.false_and,
      hbids, hasks, Bool.or_false, if_false] at heq
    rcases hupdate : updateOrders cfg precision
        (computeTargets cfg.MIN_DIST_FROM_MID precision ob).1
        (computeTargets cfg.MIN_DIST_FROM_MID precision ob).2
        false false env with _ | acts0 <;>
      simp only [hupdate, Option.some.injEq, Prod.mk.injEq,
        reduceCtorEq, false_and] at heq
    obtain ⟨hst, -⟩ := heq
    rw [← hst]
    simp

/-- Witness for C4 (amended): a threshold-triggered proceed from flat
quotes increments the counter from 0 to 1. -/
theorem c4_requote_decision_witness : (1 : ℕ) = sampleQuoteState.requoteCount + 1 :=
  (c4_requote_decision defaultConfig 2 2000 sampleQuoteState c4Book c4Env
      rfl rfl rfl rfl rfl (by norm_num [sampleQuoteState])
      (by norm_num [sampleQuoteState]) rfl rfl).2.1 rfl
    (by norm_num [defaultConfig, sampleQuoteState])
    (Or.inl (by
      have habs1 : |((47 : ℚ) / 100)| = 47 / 100 := abs_of_nonneg (by norm_num)
      norm_num [computeTargets, bestBidOf, bestAskOf, firstBidLE, firstAskGE,
        snapFloor, snapCeil, tickOf, jsToFixed, round_eq, defaultConfig,
        sampleQuoteState, c4Book, habs1]))
    { sampleQuoteState with
        requoteCount := 1
        lastOrderTime := 2000
        currentBid := 47 / 100
        currentAsk := 53 / 100
        lastQuotedBid := some (47 / 100)
        lastQuotedAsk := some (53 / 100) }
    [QuoteAction.cancelAllResting,
     QuoteAction.placeLimit true (47 / 100) 50,
     QuoteAction.placeLimit false (47 / 100) 50]
    (by
      have habs1 : |((47 : ℚ) / 100)| = 47 / 100 := abs_of_nonneg (by norm_num)
      have habs2 : |((53 : ℚ) / 100)| = 53 / 100 := abs_of_nonneg (by norm_num)
      norm_num [onOrderbookUpdate, updateOrders, cancelLoop, computeTargets,
        bestBidOf, bestAskOf, firstBidLE, firstAskGE, snapFloor, snapCeil, tickOf,
        jsToFixed, round_eq, defaultConfig, c4Book, c4Env, sampleQuoteState,
        habs1, habs2])

/-! ## C7 -/

/-- The synthetic NO-side ask book derived from the YES book, following
the source's own derivation convention (dip-arb-bot.ts lines 200–201:
"NO Ask = 1 - YES Bid"). -/
def syntheticNoAsks (ob : OrderbookData) : List OrderbookItem :=
  ob.bids.map (fun l => (1 - l.1, l.2))

/-- MONITORING state whose NO price history shows five samples at 0.50
inside the sliding window; the YES history is empty. -/
def c7NoDipState : DipState :=
  { phase := Phase.MONITORING, yesHistory := [],
    noHistory := [(9000, 1 / 2), (9100, 1 / 2), (9200, 1 / 2), (9300, 1 / 2), (9400, 1 / 2)],
    leg1FillPrice := 0, leg1Side := none, leg1Time := 0, walletBalanceUSDT := 100 }

/-- Snapshot whose best YES bid 0.70 makes the synthetic NO price crash
to 0.30 (velocity −40%), with 500 shares of depth resting at that
price. -/
def c7NoDipBook : OrderbookData :=
  { bids := [(70 / 100, 500)], asks := [(72 / 100, 500)] }

/-- **C7, counterexample.** The NO outcome's velocity (−0.40) is far
below the −0.12 threshold and 500 shares rest within 1% of the NO price
(against twice the trade size = 100), yet the cycle places no order at
all and stays in MONITORING: the source's NO-entry branch is dead
code. -/
theorem c7_counterexample :
    calculateVelocity
        ((analyzeOrderbook defaultDipConfig c7NoDipState c7NoDipBook 10000 true true).1.noHistory)
        < defaultDipConfig.maxVelocity
      ∧ defaultDipConfig.shares * 2
          < checkOrderbookDepth (syntheticNoAsks c7NoDipBook)
              (jsToFixed 4 (1 - bestBidOf c7NoDipBook) * (101 / 100))
      ∧ (analyzeOrderbook defaultDipConfig c7NoDipState c7NoDipBook 10000 true true).2 = []
      ∧ (analyzeOrderbook defaultDipConfig c7NoDipState c7NoDipBook 10000 true true).1.phase
          = Phase.MONITORING := by
  refine ⟨?_, ?_, ?_, ?_⟩ <;>
    · norm_num [analyzeOrderbook, calculateVelocity, checkOrderbookDepth, syntheticNoAsks,
        updateHistory, pruneHistory, bestBidOf, bestAskOf, jsToFixed, round_eq,
        defaultDipConfig, c7NoDipState, c7NoDipBook]
      try simp
      try norm_num

/-- **C7, amended.** In MONITORING only the YES outcome can trigger an
entry: when the YES velocity falls below the threshold and the YES-ask
depth within 1% of the YES price exceeds twice the trade size, a limit
BUY on YES is placed sized `min(shares, floor(1% of wallet / price))`,
transitioning to LEG1_FILLED on success and reverting to MONITORING on
failure; when the YES velocity does not cross the threshold, no order
is placed regardless of the NO outcome's velocity or depth. -/
theorem c7_entry_only_yes (cfg : DipConfig) (st : DipState) (ob : OrderbookData)
    (now : ℤ) (success : Bool)
    (hphase : st.phase = Phase.MONITORING)
    (hbids : ob.bids.isEmpty = false) (hasks : ob.asks.isEmpty = false) :
    (calculateVelocity (updateHistory cfg.slidingWindowMs st.yesHistory (bestAskOf ob) now)
        < cfg.maxVelocity →
      cfg.shares * 2 < checkOrderbookDepth ob.asks (bestAskOf ob * (101 / 100)) →
      1 ≤ min cfg.shares ((⌊st.walletBalanceUSDT * (1 / 100) / bestAskOf ob⌋ : ℤ) : ℚ) →
      analyzeOrderbook cfg st ob now true success
        = (if success then
            ({ st with
                yesHistory := updateHistory cfg.slidingWindowMs st.yesHistory (bestAskOf ob) now
                noHistory := updateHistory cfg.slidingWindowMs st.noHistory
                  (jsToFixed 4 (1 - bestBidOf ob)) now
                phase := Phase.LEG1_FILLED
                leg1FillPrice := bestAskOf ob
                leg1Side := some true
                leg1Time := now },
              [DipAction.placeLeg1 true (bestAskOf ob)
                (min cfg.shares ((⌊st.walletBalanceUSDT * (1 / 100) / bestAskOf ob⌋ : ℤ) : ℚ))])
          else
            ({ st with
                yesHistory := updateHistory cfg.slidingWindowMs st.yesHistory (bestAskOf ob) now
                noHistory := updateHistory cfg.slidingWindowMs st.noHistory
                  (jsToFixed 4 (1 - bestBidOf ob)) now
                phase := Phase.MONITORING },
              [DipAction.placeLeg1 true (bestAskOf ob)
                (min cfg.shares ((⌊st.walletBalanceUSDT * (1 / 100) / bestAskOf ob⌋ : ℤ) : ℚ))])))
    ∧ (¬ calculateVelocity (updateHistory cfg.slidingWindowMs st.yesHistory (bestAskOf ob) now)
          < cfg.maxVelocity →
        (analyzeOrderbook cfg st ob now true success).2 = []
          ∧ (analyzeOrderbook cfg st ob now true success).1.phase = Phase.MONITORING) := by
  obtain ⟨ph, yh, nh, l1p, l1s, l1t, wb⟩ := st
  dsimp only at hphase ⊢
  subst hphase
  constructor
  · intro hv hd hs
    rw [analyzeOrderbook]
    simp only [Bool.not_true, Bool.false_or, hbids, hasks, Bool.or_self,
      Bool.false_eq_true, if_false, reduceCtorEq, decide_False]
    rw [if_pos hv, if_pos hd, executeLeg1]
    rw [if_neg (not_lt.mpr hs)]
  · intro hnv
    rw [analyzeOrderbook]
    simp only [Bool.not_true, Bool.false_or, hbids, hasks, Bool.or_self,
      Bool.false_eq_true, if_false, reduceCtorEq, decide_False]
    rw [if_neg hnv]
    constructor <;> rfl

/-- The YES-dip state and book used for the C7 witness: YES price drops
from 0.50 to 0.30 (velocity −40%) with 500 shares of ask depth. -/
def c7YesDipState : DipState :=
  { phase := Phase.MONITORING,
    yesHistory := [(9000, 1 / 2), (9100, 1 / 2), (9200, 1 / 2), (9300, 1 / 2), (9400, 1 / 2)],
    noHistory := [], leg1FillPrice := 0, leg1Side := none, leg1Time := 0,
    walletBalanceUSDT := 10000 }

def c7YesDipBook : OrderbookData :=
  { bids := [(28 / 100, 500)], asks := [(30 / 100, 500)] }

/-- Witness for C7 (amended): the concrete YES dip places the 50-share
leg-1 BUY and moves to LEG1_FILLED. -/
theorem c7_entry_only_yes_witness :
    analyzeOrderbook defaultDipConfig c7YesDipState c7YesDipBook 10000 true true
      = ({ phase := Phase.LEG1_FILLED,
           yesHistory := [(9000, 1 / 2), (9100, 1 / 2), (9200, 1 / 2), (9300, 1 / 2),
             (9400, 1 / 2), (10000, 3 / 10)],
           noHistory := [(10000, 18 / 25)],
           leg1FillPrice := 3 / 10, leg1Side := some true, leg1Time := 10000,
           walletBalanceUSDT := 10000 },
         [DipAction.placeLeg1 true (3 / 10) 50]) :=
  ((c7_entry_only_yes defaultDipConfig c7YesDipState c7YesDipBook 10000 true
      rfl rfl rfl).1
    (by norm_num [calculateVelocity, updateHistory, pruneHistory, bestAskOf,
      c7YesDipState, c7YesDipBook, defaultDipConfig])
    (by norm_num [checkOrderbookDepth, bestAskOf, c7YesDipState, c7YesDipBook,
      defaultDipConfig])
    (by norm_num [bestAskOf, c7YesDipState, c7YesDipBook, defaultDipConfig])).trans
    (by norm_num [updateHistory, pruneHistory, bestAskOf, bestBidOf, jsToFixed,
      round_eq, c7YesDipState, c7YesDipBook, defaultDipConfig])

/-! ## C9 -/

/-- `analyzeOrderbook` either keeps the phase, enters LEG1_FILLED from
MONITORING, or enters COMPLETE from LEG1_FILLED. -/
theorem analyzeOrderbook_phase (cfg : DipConfig) (st : DipState) (ob : OrderbookData)
    (now : ℤ) (run succ : Bool) :
    (analyzeOrderbook cfg st ob now run succ).1.phase = st.phase
      ∨ (st.phase = Phase.MONITORING
          ∧ (analyzeOrderbook cfg st ob now run succ).1.phase = Phase.LEG1_FILLED)
      ∨ (st.phase = Phase.LEG1_FILLED
          ∧ (analyzeOrderbook cfg st ob now run succ).1.phase = Phase.COMPLETE) := by
  rcases hph : st.phase with _ | _ | _ <;>
    · rw [analyzeOrderbook]
      simp only [hph, executeLeg1, executeLeg2, reduceCtorEq]
      split_ifs <;> simp_all

/-- `checkLeg2Timeout` either keeps the phase or enters COMPLETE from
LEG1_FILLED. -/
theorem checkLeg2Timeout_phase (cfg : DipConfig) (st : DipState) (now : ℤ)
    (lob : Option OrderbookData) (succ : Bool) :
    (checkLeg2Timeout cfg st now lob succ).1.phase = st.phase
      ∨ (st.phase = Phase.LEG1_FILLED
          ∧ (checkLeg2Timeout cfg st now lob succ).1.phase = Phase.COMPLETE) := by
  rcases hph : st.phase with _ | _ | _ <;>
    rcases lob with _ | ob <;>
    rcases htry : trySoftHedgeLadder cfg st.leg1FillPrice with _ | hp <;>
    · rw [checkLeg2Timeout]
      simp only [hph, htry, executeLeg2, reduceCtorEq]
      split_ifs <;> simp_all

/-- A leg-1 BUY can only be emitted by `analyzeOrderbook` while in
MONITORING. -/
theorem analyzeOrderbook_leg1_only_monitoring (cfg : DipConfig) (st : DipState)
    (ob : OrderbookData) (now : ℤ) (run succ : Bool) (s : Bool) (p sh : ℚ)
    (hmem : DipAction.placeLeg1 s p sh ∈ (analyzeOrderbook cfg st ob now run succ).2) :
    st.phase = Phase.MONITORING := by
  rcases hph : st.phase with _ | _ | _
  · rfl
  · rw [analyzeOrderbook] at hmem
    simp only [hph, executeLeg2, reduceCtorEq] at hmem
    split_ifs at hmem <;> simp_all
  · rw [analyzeOrderbook] at hmem
    simp only [hph, reduceCtorEq] at hmem
    split_ifs at hmem <;> simp_all

set_option maxHeartbeats 1600000 in
/-- `checkLeg2Timeout` never emits a leg-1 BUY. -/
theorem checkLeg2Timeout_no_leg1 (cfg : DipConfig) (st : DipState) (now : ℤ)
    (lob : Option OrderbookData) (succ : Bool) (s : Bool) (p sh : ℚ)
    (hmem : DipAction.placeLeg1 s p sh ∈ (checkLeg2Timeout cfg st now lob succ).2) :
    False := by
  rcases lob with _ | ob <;>
    rcases htry : trySoftHedgeLadder cfg st.leg1FillPrice with _ | hp <;>
    · rw [checkLeg2Timeout] at hmem
      simp only [htry, executeLeg2, reduceCtorEq] at hmem
      split_ifs at hmem <;> simp_all

set_option maxHeartbeats 1600000 in
/-- One engine step preserves "no leg-1 recorded while MONITORING". -/
theorem dipStep_preserves_leg1Inv (cfg : DipConfig) (st : DipState) (e : DipEvent)
    (h : st.phase = Phase.MONITORING → st.leg1Side = none) :
    (dipStep cfg st e).1.phase = Phase.MONITORING →
      (dipStep cfg st e).1.leg1Side = none := by
  cases e with
  | orderbookPush ob now succ =>
    rcases hph : st.phase with _ | _ | _ <;>
      · rw [dipStep, analyzeOrderbook]
        simp only [hph, executeLeg1, executeLeg2, reduceCtorEq]
        split_ifs <;> (intro hM; simp_all)
  | timeoutTick now lob succ =>
    rcases hph : st.phase with _ | _ | _ <;>
      rcases lob with _ | ob <;>
      rcases htry : trySoftHedgeLadder cfg st.leg1FillPrice with _ | hp <;>
      · rw [dipStep, checkLeg2Timeout]
        simp only [hph, htry, executeLeg2, reduceCtorEq]
        split_ifs <;> (intro hM; simp_all)
  | cooldownElapsed =>
    rcases hph : st.phase with _ | _ | _ <;>
      · rw [dipStep, dipCooldownReset]
        simp only [hph, reduceCtorEq]
        split_ifs <;> (intro hM; simp_all)

/-- **C9.** The dip controller's phase only ever moves along
MONITORING → LEG1_FILLED → COMPLETE → (cooldown) → MONITORING: every
step either keeps the phase or takes exactly one forward edge, and the
COMPLETE → MONITORING edge only on the cooldown event; a leg-1 BUY is
only ever emitted from MONITORING; and in every reachable MONITORING
state no leg-1 position is recorded — so at most one leg-1 position is
open at a time per engine instance. -/
theorem c9_phase_machine :
    (∀ (cfg : DipConfig) (st : DipState) (e : DipEvent),
      (dipStep cfg st e).1.phase = st.phase
        ∨ (st.phase = Phase.MONITORING
            ∧ (dipStep cfg st e).1.phase = Phase.LEG1_FILLED)
        ∨ (st.phase = Phase.LEG1_FILLED
            ∧ (dipStep cfg st e).1.phase = Phase.COMPLETE)
        ∨ (st.phase = Phase.COMPLETE
            ∧ (dipStep cfg st e).1.phase = Phase.MONITORING
            ∧ e = DipEvent.cooldownElapsed))
    ∧ (∀ (cfg : DipConfig) (st : DipState) (e : DipEvent) (s : Bool) (p sh : ℚ),
        DipAction.placeLeg1 s p sh ∈ (dipStep cfg st e).2 →
          st.phase = Phase.MONITORING)
    ∧ (∀ (cfg : DipConfig) (st : DipState), DipReachable cfg st →
        st.phase = Phase.MONITORING → st.leg1Side = none) := by
  refine ⟨?_, ?_, ?_⟩
  · intro cfg st e
    cases e with
    | orderbookPush ob now succ =>
      rcases analyzeOrderbook_phase cfg st ob now true succ with h | h | h
      · exact Or.inl h
      · exact Or.inr (Or.inl h)
      · exact Or.inr (Or.inr (Or.inl h))
    | timeoutTick now lob succ =>
      rcases checkLeg2Timeout_phase cfg st now lob succ with h | h
      · exact Or.inl h
      · exact Or.inr (Or.inr (Or.inl h))
    | cooldownElapsed =>
      rcases hph : st.phase with _ | _ | _
      · exact Or.inl (by rw [dipStep, dipCooldownReset, if_neg (by simp [hph]), hph])
      · exact Or.inl (by rw [dipStep, dipCooldownReset, if_neg (by simp [hph]), hph])
      · exact Or.inr (Or.inr (Or.inr
          ⟨rfl, by rw [dipStep, dipCooldownReset, if_pos hph], rfl⟩))
  · intro cfg st e s p sh hmem
    cases e with
    | orderbookPush ob now succ =>
      exact analyzeOrderbook_leg1_only_monitoring cfg st ob now true succ s p sh hmem
    | timeoutTick now lob succ =>
      exact absurd hmem (fun hm => checkLeg2Timeout_no_leg1 cfg st now lob succ s p sh hm)
    | cooldownElapsed => simp [dipStep] at hmem
  · intro cfg st hreach
    induction hreach with
    | init => intro _; rfl
    | step st' e _ ih => exact dipStep_preserves_leg1Inv cfg st' e ih

/-- Witness for C9: in the initial (reachable, MONITORING) state no
leg-1 position is recorded. -/
theorem c9_phase_machine_witness : initialDipState.leg1Side = none :=
  c9_phase_machine.2.2 defaultDipConfig initialDipState DipReachable.init rfl

/-! ## C1 -/

/-- The bid wall scan never returns a price above its bound. -/
theorem firstBidLE_getD_le (ls : List OrderbookItem) (bound : ℚ) :
    (firstBidLE ls bound).getD bound ≤ bound := by
  cases hW : firstBidLE ls bound with
  | none => simp
  | some w => simpa using firstBidLE_le hW

/-- The ask wall scan never returns a price below its bound. -/
theorem firstAskGE_getD_ge (ls : List OrderbookItem) (bound : ℚ) :
    bound ≤ (firstAskGE ls bound).getD bound := by
  cases hW : firstAskGE ls bound with
  | none => simp
  | some w => simpa using firstAskGE_ge hW

/-- The off-grid book of the C1 counterexample: best bid 0.995 and best
ask 0.999 both lie strictly inside (0, 1) as the data model requires,
but are not multiples of the 0.01 tick. -/
def c1CexOb : OrderbookData := { bids := [(995 / 1000, 1)], asks := [(999 / 1000, 1)] }

/-- **C1, counterexample.** On the off-grid snapshot the final
anti-cross clamp (`targetAsk ≤ bestBid → targetAsk = bestBid + tick`)
pushes the target ask to 1.005, violating `targetAsk ≤ 1 − tick` (and
even `targetAsk ≤ 1`); the quoting cycle reaches the placement stage
with that ask and prices the NO leg at 0. -/
theorem c1_counterexample :
    computeTargets (3 / 100) 2 c1CexOb = (24 / 25, 201 / 200)
      ∧ 1 - tickOf 2 < 201 / 200
      ∧ onOrderbookUpdate defaultConfig 2 1000 sampleQuoteState c1CexOb
          { posQuery := some (0, 0), cancelResponses := [false] }
        = some ({ sampleQuoteState with
                    requoteCount := 1
                    lastOrderTime := 1000
                    currentBid := 24 / 25
                    currentAsk := 201 / 200
                    lastQuotedBid := some (24 / 25)
                    lastQuotedAsk := some (201 / 200) },
                [QuoteAction.cancelAllResting,
                 QuoteAction.placeLimit true (24 / 25) 50,
                 QuoteAction.placeLimit false 0 50]) := by
  have hceil : (⌈(1027 : ℚ) / 10⌉ : ℤ) = 103 := by
    rw [Int.ceil_eq_iff]
    constructor <;> norm_num
  refine ⟨?_, by norm_num [tickOf], ?_⟩
  · norm_num [computeTargets, bestBidOf, bestAskOf, firstBidLE, firstAskGE,
      snapFloor, snapCeil, tickOf, jsToFixed, round_eq, c1CexOb, hceil]
  · have habs1 : |((24 : ℚ) / 25)| = 24 / 25 := abs_of_nonneg (by norm_num)
    have habs2 : |((201 : ℚ) / 200)| = 201 / 200 := abs_of_nonneg (by norm_num)
    norm_num [onOrderbookUpdate, updateOrders, cancelLoop, computeTargets,
      bestBidOf, bestAskOf, firstBidLE, firstAskGE, snapFloor, snapCeil, tickOf,
      jsToFixed, round_eq, defaultConfig, c1CexOb, sampleQuoteState, habs1, habs2,
      hceil]

/-- **C1, amended.** For every snapshot with non-empty bids and asks
whose best bid and best ask are multiples of the tick lying in
`[tick, 1 − tick]` and do not cross (`bestBid < bestAsk`), and for any
positive `minDist` and precision ≥ 1, the computed targets satisfy
`tick ≤ targetBid < targetAsk ≤ 1 − tick`, `targetBid < bestAsk`, and
`targetAsk > bestBid`. -/
theorem c1_targets_in_band (precision : ℕ) (minDist : ℚ) (ob : OrderbookData)
    (kb ka : ℕ) (hp : 1 ≤ precision) (hmd : 0 < minDist)
    (_hbne : ob.bids ≠ []) (_hane : ob.asks ≠ [])
    (hbb : bestBidOf ob = (kb : ℚ) / 10 ^ precision)
    (hba : bestAskOf ob = (ka : ℚ) / 10 ^ precision)
    (hkb : 1 ≤ kb) (hlt : kb < ka) (hka : ka + 1 ≤ 10 ^ precision) :
    tickOf precision ≤ (computeTargets minDist precision ob).1
      ∧ (computeTargets minDist precision ob).1 < (computeTargets minDist precision ob).2
      ∧ (computeTargets minDist precision ob).2 ≤ 1 - tickOf precision
      ∧ (computeTargets minDist precision ob).1 < bestAskOf ob
      ∧ bestBidOf ob < (computeTargets minDist precision ob).2 := by
  have hE0 : (0 : ℚ) < 10 ^ precision := by positivity
  have hE10 : (10 : ℚ) ≤ 10 ^ precision := by
    calc (10 : ℚ) = 10 ^ 1 := (pow_one 10).symm
    _ ≤ 10 ^ precision := pow_le_pow_right (by norm_num) hp
  have hkbQ : (1 : ℚ) ≤ (kb : ℚ) := by exact_mod_cast hkb
  have hltQ : (kb : ℚ) + 1 ≤ (ka : ℚ) := by exact_mod_cast hlt
  have hkaQ : (ka : ℚ) + 1 ≤ 10 ^ precision := by
    have h := hka
    have : ((ka : ℚ) + 1) ≤ ((10 ^ precision : ℕ) : ℚ) := by exact_mod_cast h
    push_cast at this
    linarith
  have htpos : 0 < tickOf precision := by rw [tickOf]; positivity
  have ht10 : tickOf precision ≤ 1 / 10 := by
    rw [tickOf]
    exact one_div_le_one_div_of_le (by norm_num) hE10
  have hbb1 : tickOf precision ≤ bestBidOf ob := by
    rw [hbb, tickOf]
    exact (div_le_div_right hE0).mpr hkbQ
  have hba2 : tickOf precision + tickOf precision ≤ bestAskOf ob := by
    rw [hba, tickOf, div_add_div_same]
    exact (div_le_div_right hE0).mpr (by linarith)
  have hbbub : bestBidOf ob + (tickOf precision + tickOf precision) ≤ 1 := by
    rw [hbb, tickOf, div_add_div_same, div_add_div_same]
    rw [div_le_one hE0]
    linarith
  have hbaub : bestAskOf ob + tickOf precision ≤ 1 := by
    rw [hba, tickOf, div_add_div_same]
    rw [div_le_one hE0]
    linarith
  have hbblt : bestBidOf ob < bestAskOf ob := by
    rw [hbb, hba]
    exact (div_lt_div_right hE0).mpr (by exact_mod_cast hlt)
  simp only [computeTargets]
  set bb := bestBidOf ob with hbbdef
  set ba := bestAskOf ob with hbadef
  set tk := tickOf precision with htkdef
  set tb0 := (firstBidLE ob.bids ((bb + ba) / 2 - minDist)).getD ((bb + ba) / 2 - minDist)
    with htb0def
  set ta0 := (firstAskGE ob.asks ((bb + ba) / 2 + minDist)).getD ((bb + ba) / 2 + minDist)
    with hta0def
  have htb0le : tb0 ≤ (bb + ba) / 2 - minDist := by
    rw [htb0def]
    exact firstBidLE_getD_le _ _
  have hta0ge : (bb + ba) / 2 + minDist ≤ ta0 := by
    rw [hta0def]
    exact firstAskGE_getD_ge _ _
  set tb1 := snapFloor precision tb0 with htb1def
  set ta1 := snapCeil precision ta0 with hta1def
  have htb1le : tb1 ≤ (bb + ba) / 2 - minDist := by
    rw [htb1def]
    exact le_trans (snapFloor_le _ _) htb0le
  have hta1ge : (bb + ba) / 2 + minDist ≤ ta1 := by
    rw [hta1def]
    exact le_trans hta0ge (le_snapCeil _ _)
  rw [if_neg (show ¬ ((bb + ba) / 2 ≤ tb1) by push_neg; linarith)]
  rw [if_neg (show ¬ (ta1 ≤ (bb + ba) / 2) by push_neg; linarith)]
  rw [show jsToFixed precision tb1 = tb1 by rw [htb1def]; exact jsToFixed_snapFloor _ _]
  rw [show jsToFixed precision ta1 = ta1 by rw [hta1def]; exact jsToFixed_snapCeil _ _]
  by_cases hclampB : tb1 ≤ tk
  · rw [if_pos hclampB]
    by_cases hclampA : 1 - tk ≤ ta1
    · rw [if_pos hclampA]
      rw [if_neg (show ¬ (ba ≤ tk) by push_neg; linarith)]
      rw [if_neg (show ¬ (1 - tk ≤ bb) by push_neg; linarith)]
      refine ⟨le_refl _, ?_, le_refl _, ?_, ?_⟩ <;> linarith
    · rw [if_neg hclampA]
      rw [if_neg (show ¬ (ba ≤ tk) by push_neg; linarith)]
      rw [if_neg (show ¬ (ta1 ≤ bb) by push_neg; linarith)]
      refine ⟨le_refl _, ?_, ?_, ?_, ?_⟩ <;> linarith
  · rw [if_neg hclampB]
    push_neg at hclampB
    by_cases hclampA : 1 - tk ≤ ta1
    · rw [if_pos hclampA]
      rw [if_neg (show ¬ (ba ≤ tb1) by push_neg; linarith)]
      rw [if_neg (show ¬ (1 - tk ≤ bb) by push_neg; linarith)]
      refine ⟨?_, ?_, le_refl _, ?_, ?_⟩ <;> linarith
    · rw [if_neg hclampA]
      push_neg at hclampA
      rw [if_neg (show ¬ (ba ≤ tb1) by push_neg; linarith)]
      rw [if_neg (show ¬ (ta1 ≤ bb) by push_neg; linarith)]
      refine ⟨?_, ?_, ?_, ?_, ?_⟩ <;> linarith

/-- Witness for C1 (amended): the on-grid book bid 0.48 / ask 0.52 at
precision 2 yields targets 0.47 / 0.53, inside the band and
non-crossing. -/
theorem c1_targets_in_band_witness :
    tickOf 2 ≤ (computeTargets (3 / 100) 2
        { bids := [(48 / 100, 10)], asks := [(52 / 100, 10)] }).1
      ∧ (computeTargets (3 / 100) 2
          { bids := [(48 / 100, 10)], asks := [(52 / 100, 10)] }).1
        < (computeTargets (3 / 100) 2
            { bids := [(48 / 100, 10)], asks := [(52 / 100, 10)] }).2
      ∧ (computeTargets (3 / 100) 2
          { bids := [(48 / 100, 10)], asks := [(52 / 100, 10)] }).2
        ≤ 1 - tickOf 2
      ∧ (computeTargets (3 / 100) 2
          { bids := [(48 / 100, 10)], asks := [(52 / 100, 10)] }).1
        < bestAskOf { bids := [(48 / 100, 10)], asks := [(52 / 100, 10)] }
      ∧ bestBidOf { bids := [(48 / 100, 10)], asks := [(52 / 100, 10)] }
        < (computeTargets (3 / 100) 2
            { bids := [(48 / 100, 10)], asks := [(52 / 100, 10)] }).2 :=
  c1_targets_in_band 2 (3 / 100)
    { bids := [(48 / 100, 10)], asks := [(52 / 100, 10)] } 48 52
    (by norm_num) (by norm_num) (by simp) (by simp)
    (by norm_num [bestBidOf]) (by norm_num [bestAskOf])
    (by norm_num) (by norm_num) (by norm_num)

end PredFi
